import Mathlib

/-!
Verification of the GMDI prototype ingestion and delivery pipeline.

The Lean definitions below are a shallow embedding of the Python sources:

* `src/parser/db_writer.py` (`DBWriter`)
* `src/parser/parsers/csv_metadata_parser.py` (`CSVMetadataParser`)
* `src/parser/parsers/csv_rawdata_parser.py` (`CSVRawDataParser`)
* `src/parser/main.py` (`ParserService.process_file`)
* `src/parser/service_logic.py` (`process_cml_file`)
* `src/parser/file_manager.py` (`FileManager.quarantine_file`)
* `src/parser/file_watcher.py` (`FileUploadHandler.on_created`)
* `src/mno_data_source_simulator/sftp_uploader.py` (`SFTPUploader`)
* `src/mno_data_source_simulator/main.py` (`main`, auth gate)

External effects (the database driver, the SFTP transport, the filesystem,
`pandas.to_numeric` on strings, `pandas.to_datetime`) are modelled as explicit
parameters or abstract oracles; the control flow and data transformations of
the Python code are translated directly.
-/

/-! ## String helpers

The Python code uses `in`, `startswith`, `os.path.basename`, `str.split` and
regular expression character classes.  These are modelled over `List Char`
(via `String.toList`) so that every definition evaluates by `decide`/`rfl`.
-/

/-- Models list-level substring search: `subAux pat l` is true iff `pat`
occurs as a contiguous sublist of `l`. -/
def subAux (pat : List Char) : List Char → Bool
  | [] => pat.isEmpty
  | c :: cs => pat.isPrefixOf (c :: cs) || subAux pat cs

/-- Models the Python substring test `pat in s`. -/
def strContains (s pat : String) : Bool :=
  subAux pat.toList s.toList

/-- Models Python `s.startswith(pre)`. -/
def strStartsWith (s pre : String) : Bool :=
  pre.toList.isPrefixOf s.toList

/-- Splits a character list on a separator character, keeping empty pieces,
like Python `str.split(sep)` for a one-character separator. -/
def splitChar (c : Char) : List Char → List (List Char)
  | [] => [[]]
  | x :: xs =>
    match splitChar c xs with
    | [] => [[]]
    | h :: t => if x = c then [] :: h :: t else (x :: h) :: t

/-- Models Python `path.split("/")` on a string. -/
def splitSlash (s : String) : List String :=
  (splitChar '/' s.toList).map (fun l => String.mk l)

/-- Joins components with a single slash, like `"/".join(comps)`. -/
def joinSlash : List String → String
  | [] => ""
  | [x] => x
  | x :: y :: t => x ++ "/" ++ joinSlash (y :: t)

/-- Models `posixpath.basename`: the part after the last slash. -/
def pyBasename (s : String) : String :=
  (splitSlash s).getLastD ""

/-- Models Python `re.match(r"^[allow]+$", s)` for a character class `allow`:
the match succeeds iff `s` is a non-empty run of allowed characters, or such
a run followed by one trailing newline (the `$` anchor also matches just
before a newline at the end of the string). -/
def pyFullMatchAllow (allow : Char → Bool) (s : String) : Bool :=
  let l := s.toList
  let core := if l.getLast? = some '\n' then l.dropLast else l
  !core.isEmpty && core.all allow

/-! ## The `DBWriter.connect` retry loop (`src/parser/db_writer.py`)

`psycopg2.connect` is abstracted as an oracle from the attempt number
(1-based) to either a connection value or an exception value.  The result of
`connect` is the raised-or-returned outcome together with the number of
attempts made and the list of sleep durations (seconds) performed. -/

namespace DBWriter

/-- Retry configuration fixed in `DBWriter.__init__`: `self.max_retries = 3`. -/
def max_retries : Nat := 3

/-- Retry configuration fixed in `DBWriter.__init__`:
`self.retry_backoff_seconds = 2`. -/
def retry_backoff_seconds : Nat := 2

/-- Outcome of `DBWriter.connect`: the final result (`Except.error none`
is the impossible `raise None` branch, reachable only with zero retries),
the number of attempts made, and the sleeps performed, in order. -/
structure ConnectOutcome (E C : Type) where
  result : Except (Option E) C
  attempts : Nat
  sleeps : List Nat

/-- The body of the `for attempt in range(1, self.max_retries + 1)` loop of
`DBWriter.connect`.  `attempt` is the 1-based attempt number, `fuel` the
number of loop iterations left, `lastE` the `last_exc` variable. -/
def connectFrom (oracle : Nat → Except E C) (base maxR : Nat) :
    Nat → Nat → Option E → ConnectOutcome E C
  | _, 0, lastE => ⟨Except.error lastE, 0, []⟩
  | attempt, fuel + 1, _ =>
    match oracle attempt with
    | Except.ok c => ⟨Except.ok c, 1, []⟩
    | Except.error e =>
      let sleepsHere := if attempt < maxR then [base * 2 ^ (attempt - 1)] else []
      let rest := connectFrom oracle base maxR (attempt + 1) fuel (some e)
      ⟨rest.result, rest.attempts + 1, sleepsHere ++ rest.sleeps⟩

/-- Models `DBWriter.connect` on a writer with no existing connection
(`self.conn is None`): up to `max_retries` attempts, sleeping
`retry_backoff_seconds * 2 ** (attempt - 1)` after each failed non-final
attempt, raising the last exception when all attempts fail. -/
def connect (oracle : Nat → Except E C) : ConnectOutcome E C :=
  connectFrom oracle retry_backoff_seconds max_retries 1 max_retries none

end DBWriter

/-- Claim C5: `connect()` makes at most 3 connection attempts with sleeps of
2s then 4s between attempts (base 2s times `2^(attempt-1)`): a successful
attempt returns immediately with no further attempts or sleeps; if all 3
attempts fail, the error of the last attempt is raised after exactly 3
attempts. -/
theorem claimC5_connect_retry (E C : Type) (oracle : Nat → Except E C) :
    (DBWriter.connect oracle).attempts ≤ 3 ∧
    (∀ c, oracle 1 = Except.ok c →
      DBWriter.connect oracle = ⟨Except.ok c, 1, []⟩) ∧
    (∀ e1 c, oracle 1 = Except.error e1 → oracle 2 = Except.ok c →
      DBWriter.connect oracle = ⟨Except.ok c, 2, [2]⟩) ∧
    (∀ e1 e2 c, oracle 1 = Except.error e1 → oracle 2 = Except.error e2 →
      oracle 3 = Except.ok c →
      DBWriter.connect oracle = ⟨Except.ok c, 3, [2, 4]⟩) ∧
    (∀ e1 e2 e3, oracle 1 = Except.error e1 → oracle 2 = Except.error e2 →
      oracle 3 = Except.error e3 →
      DBWriter.connect oracle = ⟨Except.error (some e3), 3, [2, 4]⟩) := by
  cases h1 : oracle 1 with
  | ok c1 =>
    simp [DBWriter.connect, DBWriter.connectFrom, DBWriter.max_retries,
      DBWriter.retry_backoff_seconds, h1]
  | error e1 =>
    cases h2 : oracle 2 with
    | ok c2 =>
      simp [DBWriter.connect, DBWriter.connectFrom, DBWriter.max_retries,
        DBWriter.retry_backoff_seconds, h1, h2]
    | error e2 =>
      cases h3 : oracle 3 with
      | ok c3 =>
        simp [DBWriter.connect, DBWriter.connectFrom, DBWriter.max_retries,
          DBWriter.retry_backoff_seconds, h1, h2, h3]
      | error e3 =>
        simp [DBWriter.connect, DBWriter.connectFrom, DBWriter.max_retries,
          DBWriter.retry_backoff_seconds, h1, h2, h3]

/-- Witness for C5: a connection that fails twice then succeeds makes exactly
3 attempts with sleeps 2s and 4s; one that always fails raises the last
error after 3 attempts. -/
theorem claimC5_connect_retry_witness :
    DBWriter.connect (fun n => if n = 3 then Except.ok 7 else Except.error n) =
      ⟨Except.ok 7, 3, [2, 4]⟩ ∧
    DBWriter.connect (fun n => (Except.error n : Except Nat Nat)) =
      ⟨Except.error (some 3), 3, [2, 4]⟩ := by
  constructor
  · exact (claimC5_connect_retry Nat Nat _).2.2.2.1 1 2 7 rfl rfl rfl
  · exact (claimC5_connect_retry Nat Nat _).2.2.2.2 1 2 3 rfl rfl rfl

/-! ## Pandas value and DataFrame model

A cell of a `pandas.DataFrame` read from CSV is null (`NaN`/`NaT`), a number,
or a string.  A frame is a list of column labels plus rows; a row is a
function from column label to cell, so column selection and per-column
transformation translate `df[col] = ...` and `df.loc[:, cols]` directly. -/

/-- A pandas cell value: null (NaN/NaT/None), numeric, or string.  Python
floats are modelled as rationals. -/
inductive PyVal
  | vnone
  | vnum (q : ℚ)
  | vstr (s : String)
  deriving DecidableEq

/-- Abstraction of Python `str()` applied to a float value.  The exact digit
string is irrelevant to every claim; only `pyStr` of a null matters. -/
def pyNumRepr (q : ℚ) : String := toString q

/-- Models pandas `.astype(str)` on one cell: `NaN` prints as `"nan"`. -/
def pyStr : PyVal → String
  | PyVal.vnone => "nan"
  | PyVal.vnum q => pyNumRepr q
  | PyVal.vstr s => s

/-- Models pandas `.notna()` on one cell. -/
def pyNotNA : PyVal → Bool
  | PyVal.vnone => false
  | _ => true

/-- Models pandas `.fillna(repl)` on one cell. -/
def fillna (repl : PyVal) (v : PyVal) : PyVal :=
  if v = PyVal.vnone then repl else v

/-- Models `pd.to_numeric(col, errors="coerce")` on one cell, parameterized
by `toNum`, the opaque numeric parse of a string (unparsable gives `None`,
i.e. `NaN`). -/
def toNumericCoerce (toNum : String → Option ℚ) : PyVal → PyVal
  | PyVal.vnone => PyVal.vnone
  | PyVal.vnum q => PyVal.vnum q
  | PyVal.vstr s =>
    match toNum s with
    | some q => PyVal.vnum q
    | none => PyVal.vnone

/-- Models pandas `Series.between(lo, hi)` on one cell: `NaN` compares
false. -/
def betweenB (lo hi : ℚ) : PyVal → Bool
  | PyVal.vnum q => decide (lo ≤ q) && decide (q ≤ hi)
  | _ => false

/-- A pandas `DataFrame`: column labels and rows (a row maps a column label
to its cell). -/
structure DataFrame where
  columns : List String
  rows : List (String → PyVal)

/-- Column presence, `c in df.columns`. -/
def DataFrame.hasCol (df : DataFrame) (c : String) : Bool :=
  df.columns.contains c

/-- The cells of one column, top to bottom. -/
def DataFrame.getCol (df : DataFrame) (c : String) : List PyVal :=
  df.rows.map (fun r => r c)

/-- Models `df[c] = f(df[c])`: transform one column cell-wise. -/
def DataFrame.mapCol (df : DataFrame) (c : String) (f : PyVal → PyVal) :
    DataFrame :=
  ⟨df.columns, df.rows.map (fun r c2 => if c2 = c then f (r c) else r c2)⟩

/-- Models `df.loc[:, cs]` / `df[cs]` after the presence of every label in
`cs` has been checked: keep only the columns `cs`. -/
def DataFrame.selectCols (df : DataFrame) (cs : List String) : DataFrame :=
  ⟨cs, df.rows⟩

/-- Models `df.empty`: true when either axis has length zero. -/
def DataFrame.isEmptyDF (df : DataFrame) : Bool :=
  df.rows.isEmpty || df.columns.isEmpty

/-- Comma-separated join of label names, used in error strings. -/
def joinComma : List String → String
  | [] => ""
  | [x] => x
  | x :: y :: t => x ++ ", " ++ joinComma (y :: t)

/-! ## `CSVMetadataParser.parse` (`src/parser/parsers/csv_metadata_parser.py`)

The input frame is the result of a successful `pd.read_csv`; the read-failure
branch returns before any logic modelled here.  `pd.to_numeric` on strings is
the opaque parameter `toNum`; `.astype(str)` and `to_numeric(errors="coerce")`
on null/numeric cells never raise, so the `Column conversion error` branch is
not reachable in the model. -/

namespace CSVMetadataParser

/-- The `REQUIRED_COLUMNS` class attribute. -/
def REQUIRED_COLUMNS : List String :=
  ["cml_id", "site_0_lon", "site_0_lat", "site_1_lon", "site_1_lat"]

/-- One coordinate check of `parse`:
`df[c].notna().any() and not df[c].between(lo, hi).all()`.  Note that a null
cell makes `between` false, so a column mixing nulls with in-range values
fails, while a fully-null column skips the check. -/
def colBad (df : DataFrame) (c : String) (lo hi : ℚ) : Bool :=
  (df.getCol c).any pyNotNA && !((df.getCol c).all (betweenB lo hi))

/-- The conversion block of `parse`: `cml_id` to `str`, the four coordinate
columns through `pd.to_numeric(errors="coerce")`. -/
def convert (toNum : String → Option ℚ) (df : DataFrame) : DataFrame :=
  (["site_0_lon", "site_0_lat", "site_1_lon", "site_1_lat"]).foldl
    (fun d c => d.mapCol c (toNumericCoerce toNum))
    (df.mapCol "cml_id" (fun v => PyVal.vstr (pyStr v)))

/-- Models `CSVMetadataParser.parse` from the frame returned by
`pd.read_csv`: required-column check, conversions, coordinate validation in
source order, then `df.loc[:, REQUIRED_COLUMNS]`. -/
def parse (toNum : String → Option ℚ) (df : DataFrame) :
    Except String DataFrame :=
  let missing := REQUIRED_COLUMNS.filter (fun c => !df.hasCol c)
  if !missing.isEmpty then
    Except.error ("Missing required columns: " ++ joinComma missing)
  else
    let d2 := convert toNum df
    if colBad d2 "site_0_lon" (-180) 180 then
      Except.error "Invalid longitude values in site_0_lon"
    else if colBad d2 "site_1_lon" (-180) 180 then
      Except.error "Invalid longitude values in site_1_lon"
    else if colBad d2 "site_0_lat" (-90) 90 then
      Except.error "Invalid latitude values in site_0_lat"
    else if colBad d2 "site_1_lat" (-90) 90 then
      Except.error "Invalid latitude values in site_1_lat"
    else Except.ok (d2.selectCols REQUIRED_COLUMNS)

end CSVMetadataParser

/-! ## `CSVRawDataParser.parse` (`src/parser/parsers/csv_rawdata_parser.py`)

`pd.to_datetime(col, errors="coerce")` is the opaque parameter `toTime`
applied cell-wise, with `NaT` modelled as the null cell. -/

namespace CSVRawDataParser

/-- The `REQUIRED_COLUMNS` class attribute. -/
def REQUIRED_COLUMNS : List String :=
  ["time", "cml_id", "sublink_id", "tsl", "rsl"]

/-- Models `CSVRawDataParser.parse` from the frame returned by
`pd.read_csv`: required-column check, `time` through `to_datetime(coerce)`,
`cml_id` through `.fillna("nan").astype(str)`, `sublink_id` through
`.astype(str)`, `tsl`/`rsl` through `to_numeric(coerce)`, then the
whole-file timestamp check. -/
def parse (toNum : String → Option ℚ) (toTime : PyVal → PyVal)
    (df : DataFrame) : Except String DataFrame :=
  let missing := REQUIRED_COLUMNS.filter (fun c => !df.hasCol c)
  if !missing.isEmpty then
    Except.error ("Missing required columns: " ++ joinComma missing)
  else
    let d1 := df.mapCol "time" toTime
    let d2 := d1.mapCol "cml_id"
      (fun v => PyVal.vstr (pyStr (fillna (PyVal.vstr "nan") v)))
    let d3 := d2.mapCol "sublink_id" (fun v => PyVal.vstr (pyStr v))
    let d4 := d3.mapCol "tsl" (toNumericCoerce toNum)
    let d5 := d4.mapCol "rsl" (toNumericCoerce toNum)
    if (d5.getCol "time").any (fun v => !pyNotNA v) then
      Except.error "Invalid timestamps found"
    else Except.ok d5

end CSVRawDataParser

/-! ## `DBWriter` write and reference-validation methods
(`src/parser/db_writer.py`)

The SQL layer is abstracted: a successful batch insert stores exactly the
records built from the frame and returns `len(records)`.  Selecting absent
columns (`df[cols]`) raises a `KeyError` in pandas; this is the
`Except.error` branch.  The existing `(cml_id, sublink_id)` key set of the
`cml_metadata` table is an explicit argument. -/

/-- One row bound for the `cml_metadata` insert, in column order. -/
structure MetaRecord where
  cml_id : String
  sublink_id : String
  site_0_lon : PyVal
  site_0_lat : PyVal
  site_1_lon : PyVal
  site_1_lat : PyVal
  frequency : PyVal
  polarization : PyVal
  length : PyVal
  deriving DecidableEq

/-- One row bound for the `cml_data` insert, in column order. -/
structure RawRecord where
  time : PyVal
  cml_id : String
  sublink_id : Option String
  rsl : PyVal
  tsl : PyVal
  deriving DecidableEq

namespace DBWriter

/-- Models `DBWriter.write_metadata`: empty frame returns 0 with no work;
otherwise `df[cols]` over the nine insert columns (a missing label raises),
`cml_id`/`sublink_id` through `.astype(str)`, then the batch upsert, which
returns `len(records)`. -/
def write_metadata (df : DataFrame) : Except String (List MetaRecord × Nat) :=
  if df.isEmptyDF then Except.ok ([], 0)
  else
    let cols := ["cml_id", "sublink_id", "site_0_lon", "site_0_lat",
      "site_1_lon", "site_1_lat", "frequency", "polarization", "length"]
    let missing := cols.filter (fun c => !df.hasCol c)
    if !missing.isEmpty then
      Except.error ("KeyError: columns not found: " ++ joinComma missing)
    else
      let recs := df.rows.map (fun r =>
        (⟨pyStr (r "cml_id"), pyStr (r "sublink_id"),
          r "site_0_lon", r "site_0_lat", r "site_1_lon", r "site_1_lat",
          r "frequency", r "polarization", r "length"⟩ : MetaRecord))
      Except.ok (recs, recs.length)

/-- Models the `sublink_id` treatment of `write_rawdata`:
`.astype(str).replace("nan", None)`. -/
def sublinkCell (v : PyVal) : Option String :=
  if pyStr v = "nan" then none else some (pyStr v)

/-- Models `DBWriter.write_rawdata`: empty frame returns 0; otherwise
`df[cols]` over the five insert columns, `cml_id` through `.astype(str)`
(keeping a literal `"nan"`), `sublink_id` additionally `"nan"`-to-`NULL`,
then the batch append returning `len(records)`. -/
def write_rawdata (df : DataFrame) : Except String (List RawRecord × Nat) :=
  if df.isEmptyDF then Except.ok ([], 0)
  else
    let cols := ["time", "cml_id", "sublink_id", "rsl", "tsl"]
    let missing := cols.filter (fun c => !df.hasCol c)
    if !missing.isEmpty then
      Except.error ("KeyError: columns not found: " ++ joinComma missing)
    else
      let recs := df.rows.map (fun r =>
        (⟨r "time", pyStr (r "cml_id"), sublinkCell (r "sublink_id"),
          r "rsl", r "tsl"⟩ : RawRecord))
      Except.ok (recs, recs.length)

/-- Python string comparison (`<` on code points), used by `sorted`. -/
def strLtChars : List Char → List Char → Bool
  | [], [] => false
  | [], _ :: _ => true
  | _ :: _, [] => false
  | a :: as, b :: bs =>
    if a.toNat < b.toNat then true
    else if b.toNat < a.toNat then false
    else strLtChars as bs

/-- Python tuple comparison `(a1, a2) <= (b1, b2)` on string pairs. -/
def pairLe (p q : String × String) : Bool :=
  strLtChars p.1.toList q.1.toList ||
    (p.1 = q.1 && (p.2 = q.2 || strLtChars p.2.toList q.2.toList))

/-- Insertion step of the sort used to model Python `sorted`. -/
def insertSorted (x : String × String) :
    List (String × String) → List (String × String)
  | [] => [x]
  | y :: ys => if pairLe x y then x :: y :: ys else y :: insertSorted x ys

/-- Models Python `sorted` on a list of string pairs. -/
def sortPairs (l : List (String × String)) : List (String × String) :=
  l.foldr insertSorted []

/-- Models building `set(...)` from a list: duplicates removed (iteration
order is irrelevant because the result is sorted afterwards). -/
def distinctPairs : List (String × String) → List (String × String)
  | [] => []
  | x :: xs => if x ∈ xs then distinctPairs xs else x :: distinctPairs xs

/-- Models `DBWriter.validate_rawdata_references`: empty frame gives
`(True, [])`; otherwise the distinct `(cml_id, sublink_id)` pairs of the
frame (each component through `.astype(str)`) minus the `existing` key set
of `cml_metadata`, sorted. -/
def validate_rawdata_references (existing : List (String × String))
    (df : DataFrame) : Bool × List (String × String) :=
  if df.isEmptyDF then (true, [])
  else
    let pairs := distinctPairs
      (df.rows.map (fun r => (pyStr (r "cml_id"), pyStr (r "sublink_id"))))
    let missing := sortPairs (pairs.filter (fun p => !existing.contains p))
    (missing.isEmpty, missing)

end DBWriter

/-- Helper for C2: `write_metadata` on any non-empty frame whose columns are
exactly the five metadata-parser output columns raises the missing-column
error for the four absent insert columns. -/
theorem write_metadata_cols5 (rows : List (String → PyVal)) (hr : rows ≠ []) :
    DBWriter.write_metadata
        ⟨["cml_id", "site_0_lon", "site_0_lat", "site_1_lon", "site_1_lat"],
          rows⟩ =
      Except.error
        "KeyError: columns not found: sublink_id, frequency, polarization, length" := by
  cases rows with
  | nil => exact absurd rfl hr
  | cons a l => rfl

/-- Claim C2: on success, `CSVMetadataParser.parse` returns a table with
exactly the five columns `cml_id, site_0_lon, site_0_lat, site_1_lon,
site_1_lat` (every other input column, including `sublink_id`, `frequency`,
`polarization` and `length`, is dropped), whereas `DBWriter.write_metadata`
selects nine columns including those four; hence for every non-empty table
produced by a successful metadata parse, `write_metadata` raises a
missing-column error instead of writing rows. -/
theorem claimC2_parse_write_metadata_mismatch
    (toNum : String → Option ℚ) (f df : DataFrame)
    (h : CSVMetadataParser.parse toNum f = Except.ok df) :
    df.columns = ["cml_id", "site_0_lon", "site_0_lat", "site_1_lon",
      "site_1_lat"] ∧
    (df.rows ≠ [] →
      DBWriter.write_metadata df =
        Except.error
          "KeyError: columns not found: sublink_id, frequency, polarization, length") := by
  simp only [CSVMetadataParser.parse] at h
  split at h
  · exact absurd h (by simp)
  · split at h
    · exact absurd h (by simp)
    · split at h
      · exact absurd h (by simp)
      · split at h
        · exact absurd h (by simp)
        · split at h
          · exact absurd h (by simp)
          · injection h with h
            subst h
            exact ⟨rfl, fun hr => write_metadata_cols5 _ hr⟩

/-- Witness for C2: a concrete one-row metadata frame (with a `sublink_id`
input column) parses successfully, and `write_metadata` on the parse result
raises the missing-column error. -/
theorem claimC2_parse_write_metadata_mismatch_witness :
    DBWriter.write_metadata
        ((CSVMetadataParser.parse (fun _ => Option.none)
            ⟨["cml_id", "site_0_lon", "site_0_lat", "site_1_lon",
              "site_1_lat", "sublink_id"],
              [fun c => if c = "cml_id" then PyVal.vstr "1"
                else if c = "sublink_id" then PyVal.vstr "a"
                else PyVal.vnum 1]⟩).toOption.getD ⟨[], []⟩) =
      Except.error
        "KeyError: columns not found: sublink_id, frequency, polarization, length" := by
  have h := claimC2_parse_write_metadata_mismatch (fun _ => Option.none)
    ⟨["cml_id", "site_0_lon", "site_0_lat", "site_1_lon", "site_1_lat",
      "sublink_id"],
      [fun c => if c = "cml_id" then PyVal.vstr "1"
        else if c = "sublink_id" then PyVal.vstr "a"
        else PyVal.vnum 1]⟩ _ rfl
  exact h.2 (List.cons_ne_nil _ _)

/-! ## Claim C4: coordinate validation -/

/-- Following the words of the spec sentence (for comparison with the code,
not translated from the source): a coordinate column passes iff every
non-null value lies in `[lo, hi]` and the column is not fully null. -/
def specCoordColOk (vals : List PyVal) (lo hi : ℚ) : Bool :=
  vals.all (fun v => !pyNotNA v || betweenB lo hi v) && vals.any pyNotNA

/-- Following the words of the spec sentence: the whole-frame coordinate
rule, applied to the four converted coordinate columns. -/
def specMetaCoordsOk (toNum : String → Option ℚ) (df : DataFrame) : Bool :=
  let d2 := CSVMetadataParser.convert toNum df
  specCoordColOk (d2.getCol "site_0_lon") (-180) 180 &&
  specCoordColOk (d2.getCol "site_1_lon") (-180) 180 &&
  specCoordColOk (d2.getCol "site_0_lat") (-90) 90 &&
  specCoordColOk (d2.getCol "site_1_lat") (-90) 90

/-- What one coordinate check of the code actually accepts: the column is
fully null (check skipped) or every value is non-null and in range. -/
def colPassesVals (vals : List PyVal) (lo hi : ℚ) : Bool :=
  vals.all (fun v => decide (v = PyVal.vnone)) || vals.all (betweenB lo hi)

/-- A cell is not-notna exactly when it is the null cell. -/
theorem not_pyNotNA (v : PyVal) : (!pyNotNA v) = decide (v = PyVal.vnone) := by
  cases v <;> rfl

/-- The source check `colBad` is the negation of `colPassesVals` on the
column cells. -/
theorem colBad_eq_not_colPassesVals (df : DataFrame) (c : String) (lo hi : ℚ) :
    CSVMetadataParser.colBad df c lo hi = !colPassesVals (df.getCol c) lo hi := by
  unfold CSVMetadataParser.colBad colPassesVals
  rw [List.any_eq_not_all_not, Bool.not_or]
  simp only [not_pyNotNA]

/-- A concrete metadata frame: two rows, `site_0_lon` mixes an in-range
value with a null, all other coordinates non-null and in range. -/
def claimC4Frame : DataFrame :=
  ⟨["cml_id", "site_0_lon", "site_0_lat", "site_1_lon", "site_1_lat"],
    [fun c => if c = "cml_id" then PyVal.vstr "1"
      else if c = "site_0_lon" then PyVal.vnum 5 else PyVal.vnum 50,
     fun c => if c = "cml_id" then PyVal.vstr "2"
      else if c = "site_0_lon" then PyVal.vnone else PyVal.vnum 50]⟩

/-- Counterexample to C4: a table all of whose non-null coordinates are in
range and whose coordinate columns are not fully null (so by the claim it
should pass) is rejected by `parse`, because a null cell makes
`Series.between` false and the column has `notna().any()` true. -/
theorem claimC4_counterexample :
    CSVMetadataParser.parse (fun _ => Option.none) claimC4Frame =
      Except.error "Invalid longitude values in site_0_lon" ∧
    specMetaCoordsOk (fun _ => Option.none) claimC4Frame = true :=
  ⟨rfl, rfl⟩

/-- Claim C4 (amended): for every metadata table with the required columns,
`parse` fails iff some converted coordinate column is neither fully null nor
entirely non-null-and-in-range; the error text names the offending field.
In particular a fully-null coordinate column passes (the check is skipped),
while a column mixing nulls with in-range values fails. -/
theorem claimC4_amended_coordinate_rule
    (toNum : String → Option ℚ) (df : DataFrame)
    (hcols : (CSVMetadataParser.REQUIRED_COLUMNS.filter
        (fun c => !df.hasCol c)).isEmpty = true) :
    ((CSVMetadataParser.parse toNum df).isOk = true ↔
      (colPassesVals ((CSVMetadataParser.convert toNum df).getCol
          "site_0_lon") (-180) 180 &&
        colPassesVals ((CSVMetadataParser.convert toNum df).getCol
          "site_1_lon") (-180) 180 &&
        colPassesVals ((CSVMetadataParser.convert toNum df).getCol
          "site_0_lat") (-90) 90 &&
        colPassesVals ((CSVMetadataParser.convert toNum df).getCol
          "site_1_lat") (-90) 90) = true) ∧
    (∀ e, CSVMetadataParser.parse toNum df = Except.error e →
      e ∈ ["Invalid longitude values in site_0_lon",
        "Invalid longitude values in site_1_lon",
        "Invalid latitude values in site_0_lat",
        "Invalid latitude values in site_1_lat"]) := by
  cases p0 : colPassesVals ((CSVMetadataParser.convert toNum df).getCol
      "site_0_lon") (-180) 180 <;>
    cases p1 : colPassesVals ((CSVMetadataParser.convert toNum df).getCol
      "site_1_lon") (-180) 180 <;>
    cases p2 : colPassesVals ((CSVMetadataParser.convert toNum df).getCol
      "site_0_lat") (-90) 90 <;>
    cases p3 : colPassesVals ((CSVMetadataParser.convert toNum df).getCol
      "site_1_lat") (-90) 90 <;>
    simp [CSVMetadataParser.parse, colBad_eq_not_colPassesVals, hcols,
      p0, p1, p2, p3, Except.isOk, Except.toBool]

/-- Witness for C4 (amended): the claim-C4 counterexample frame has the
required columns, and the theorem's iff decides that `parse` rejects it
(its `site_0_lon` column mixes a null with an in-range value), with an
error naming a coordinate field. -/
theorem claimC4_amended_coordinate_rule_witness :
    (CSVMetadataParser.parse (fun _ => Option.none) claimC4Frame).isOk =
      false := by
  have h := claimC4_amended_coordinate_rule (fun _ => Option.none)
    claimC4Frame rfl
  cases hiok : (CSVMetadataParser.parse (fun _ => Option.none)
      claimC4Frame).isOk with
  | false => rfl
  | true => exact absurd (h.1.mp hiok) (by decide)

/-- The per-row effect of the five column conversions of
`CSVRawDataParser.parse`, written as a single function (proved below to be
what the chained `mapCol` calls compute). -/
def rawRowConv (toNum : String → Option ℚ) (toTime : PyVal → PyVal)
    (r : String → PyVal) : String → PyVal :=
  fun c =>
    if c = "rsl" then toNumericCoerce toNum (r "rsl")
    else if c = "tsl" then toNumericCoerce toNum (r "tsl")
    else if c = "sublink_id" then PyVal.vstr (pyStr (r "sublink_id"))
    else if c = "cml_id" then
      PyVal.vstr (pyStr (fillna (PyVal.vstr "nan") (r "cml_id")))
    else if c = "time" then toTime (r "time")
    else r c

/-- The chained `mapCol` calls of the rawdata parser act row-wise as
`rawRowConv`. -/
theorem raw_convert_rows (toNum : String → Option ℚ) (toTime : PyVal → PyVal)
    (df : DataFrame) :
    (((((df.mapCol "time" toTime).mapCol "cml_id"
        (fun v => PyVal.vstr (pyStr (fillna (PyVal.vstr "nan") v)))).mapCol
        "sublink_id" (fun v => PyVal.vstr (pyStr v))).mapCol
        "tsl" (toNumericCoerce toNum)).mapCol
        "rsl" (toNumericCoerce toNum)).rows =
      df.rows.map (rawRowConv toNum toTime) := by
  simp only [DataFrame.mapCol, List.map_map]
  apply List.map_congr_left
  intro r _
  funext c
  by_cases h1 : c = "rsl"
  · simp [h1, rawRowConv, Function.comp]
  · by_cases h2 : c = "tsl"
    · simp [h1, h2, rawRowConv, Function.comp]
    · by_cases h3 : c = "sublink_id"
      · simp [h1, h2, h3, rawRowConv, Function.comp]
      · by_cases h4 : c = "cml_id"
        · simp [h1, h2, h3, h4, rawRowConv, Function.comp]
        · by_cases h5 : c = "time"
          · simp [h1, h2, h3, h4, h5, rawRowConv, Function.comp]
          · simp [h1, h2, h3, h4, h5, rawRowConv, Function.comp]

/-- When the five required columns are present and every converted timestamp
is non-null, `CSVRawDataParser.parse` succeeds and returns the frame with the
same columns and the row-wise converted rows. -/
theorem rawParse_eq (toNum : String → Option ℚ) (toTime : PyVal → PyVal)
    (df : DataFrame)
    (ht : df.hasCol "time" = true) (hc : df.hasCol "cml_id" = true)
    (hs : df.hasCol "sublink_id" = true) (htsl : df.hasCol "tsl" = true)
    (hrsl : df.hasCol "rsl" = true)
    (htime : ∀ r ∈ df.rows, pyNotNA (toTime (r "time")) = true) :
    CSVRawDataParser.parse toNum toTime df =
      Except.ok ⟨df.columns, df.rows.map (rawRowConv toNum toTime)⟩ := by
  have hrows := raw_convert_rows toNum toTime df
  have hframe : ((((df.mapCol "time" toTime).mapCol "cml_id"
      (fun v => PyVal.vstr (pyStr (fillna (PyVal.vstr "nan") v)))).mapCol
      "sublink_id" (fun v => PyVal.vstr (pyStr v))).mapCol
      "tsl" (toNumericCoerce toNum)).mapCol "rsl" (toNumericCoerce toNum) =
      ⟨df.columns, df.rows.map (rawRowConv toNum toTime)⟩ :=
    congrArg (DataFrame.mk df.columns) hrows
  have hany : ((⟨df.columns, df.rows.map (rawRowConv toNum toTime)⟩ :
      DataFrame).getCol "time").any (fun v => !pyNotNA v) = false := by
    simp only [DataFrame.getCol, List.map_map]
    rw [List.any_eq_false]
    intro v hv
    rcases List.mem_map.mp hv with ⟨r0, hr0, rfl⟩
    simp [rawRowConv, Function.comp, htime r0 hr0]
  simp only [CSVRawDataParser.parse, CSVRawDataParser.REQUIRED_COLUMNS]
  rw [hframe]
  simp [ht, hc, hs, htsl, hrsl, hany]

/-- Claim C10: for every rawdata table (with the required columns and all
timestamps parseable), rows with a missing `cml_id` are not dropped: `parse`
succeeds keeping the full row count, a missing `cml_id` becomes the literal
string `"nan"`, and `write_rawdata` stores that literal string in the
`cml_id` record field, returning the full input row count. -/
theorem claimC10_missing_link_id_nan
    (toNum : String → Option ℚ) (toTime : PyVal → PyVal) (df : DataFrame)
    (ht : df.hasCol "time" = true) (hc : df.hasCol "cml_id" = true)
    (hs : df.hasCol "sublink_id" = true) (htsl : df.hasCol "tsl" = true)
    (hrsl : df.hasCol "rsl" = true)
    (htime : ∀ r ∈ df.rows, pyNotNA (toTime (r "time")) = true) :
    ∃ out recs,
      CSVRawDataParser.parse toNum toTime df = Except.ok out ∧
      out.rows.length = df.rows.length ∧
      DBWriter.write_rawdata out = Except.ok (recs, df.rows.length) ∧
      recs.length = df.rows.length ∧
      (∀ i (hi : i < df.rows.length) (ho : i < out.rows.length)
          (hr : i < recs.length),
        (df.rows.get ⟨i, hi⟩) "cml_id" = PyVal.vnone →
        (out.rows.get ⟨i, ho⟩) "cml_id" = PyVal.vstr "nan" ∧
        (recs.get ⟨i, hr⟩).cml_id = "nan") := by
  have hparse := rawParse_eq toNum toTime df ht hc hs htsl hrsl htime
  have hcolsne : df.columns.isEmpty = false := by
    cases hcs : df.columns with
    | nil =>
      rw [DataFrame.hasCol, hcs] at ht
      exact absurd ht (by simp)
    | cons a l => rfl
  refine ⟨⟨df.columns, df.rows.map (rawRowConv toNum toTime)⟩,
    (df.rows.map (rawRowConv toNum toTime)).map (fun r =>
      (⟨r "time", pyStr (r "cml_id"), DBWriter.sublinkCell (r "sublink_id"),
        r "rsl", r "tsl"⟩ : RawRecord)), hparse, by simp, ?_, by simp, ?_⟩
  · cases hre : df.rows with
    | nil => simp [DBWriter.write_rawdata, DataFrame.isEmptyDF, hre]
    | cons r0 rest =>
      simp [DBWriter.write_rawdata, DataFrame.isEmptyDF, hre, hcolsne,
        DataFrame.hasCol] at *
      simp [DBWriter.write_rawdata, DataFrame.isEmptyDF, hre, hcolsne, ht,
        hc, hs, htsl, hrsl, DataFrame.hasCol]
  · intro i hi ho hr hnan
    constructor
    · rw [List.get_eq_getElem, List.getElem_map]
      simp [rawRowConv, List.get_eq_getElem] at *
      simp [hnan, fillna, pyStr]
    · rw [List.get_eq_getElem, List.getElem_map, List.getElem_map]
      simp [rawRowConv, List.get_eq_getElem] at *
      simp [hnan, fillna, pyStr]

/-- A concrete rawdata frame: two rows, the first with a missing `cml_id`. -/
def claimC10Frame : DataFrame :=
  ⟨["time", "cml_id", "sublink_id", "tsl", "rsl"],
    [fun c => if c = "time" then PyVal.vstr "2024-01-01T00:00:00"
      else if c = "cml_id" then PyVal.vnone
      else if c = "sublink_id" then PyVal.vstr "sublink_1"
      else PyVal.vnum 1,
     fun c => if c = "time" then PyVal.vstr "2024-01-01T00:01:00"
      else if c = "cml_id" then PyVal.vstr "10001"
      else if c = "sublink_id" then PyVal.vstr "sublink_1"
      else PyVal.vnum 2]⟩

/-- Witness for C10: on the concrete two-row frame with one missing
`cml_id`, the rawdata parse succeeds (timestamps taken as parseable via the
identity `to_datetime` oracle). -/
theorem claimC10_missing_link_id_nan_witness :
    (CSVRawDataParser.parse (fun _ => Option.none) (fun v => v)
      claimC10Frame).isOk = true := by
  obtain ⟨out, recs, hp, _⟩ :=
    claimC10_missing_link_id_nan (fun _ => Option.none) (fun v => v)
      claimC10Frame rfl rfl rfl rfl rfl
      (by
        intro r hr
        simp only [claimC10Frame, List.mem_cons, List.not_mem_nil,
          or_false] at hr
        rcases hr with rfl | rfl <;> rfl)
  rw [hp]
  rfl

/-! ## Claim C1: rawdata processing with missing metadata references

Two code paths exist.  `ParserService.process_file` (`src/parser/main.py`,
the path wired to the file watcher) quarantines the file and skips the write
when references are missing; `process_cml_file` (`src/parser/service_logic.py`,
the extracted helper, currently uncalled) writes, warns with a 10-element
sample and archives.  Both are modelled from the point where a rawdata frame
has been parsed; the database connection and the archive move are assumed to
succeed. -/

/-- Rendering of a list of string pairs for the quarantine message
(abstraction of the Python `repr` of a list of tuples, without quotes). -/
def pairsRepr (l : List (String × String)) : String :=
  "[" ++ joinComma (l.map (fun p => "(" ++ p.1 ++ ", " ++ p.2 ++ ")")) ++ "]"

/-- Outcome of processing one parsed rawdata frame: what was written, whether
the file was archived, the quarantine reason if quarantined, and the
missing-reference warning (count and sample) if one was logged. -/
structure ProcessOutcome where
  written : Option (List RawRecord × Nat)
  archived : Bool
  quarantined : Option String
  warned : Option (Nat × List (String × String))
  deriving DecidableEq

/-- Models the rawdata branch of `ParserService.process_file`
(`src/parser/main.py`): validate references; when any pair is missing the
file is quarantined with the missing list in the reason and nothing is
written; otherwise write then archive, quarantining on a write error. -/
def ParserService.process_file_rawdata (existing : List (String × String))
    (df : DataFrame) : ProcessOutcome :=
  let v := DBWriter.validate_rawdata_references existing df
  if !v.1 then
    ⟨none, false, some ("Missing metadata for CML IDs: " ++ pairsRepr v.2),
      none⟩
  else
    match DBWriter.write_rawdata df with
    | Except.ok wn => ⟨some wn, true, none, none⟩
    | Except.error e => ⟨none, false, some e, none⟩

/-- Models the rawdata branch of `process_cml_file`
(`src/parser/service_logic.py`): validate (exceptions coerced to "all
present"), write unconditionally, warn with `missing[:10]` when pairs are
missing, archive; a write error quarantines. -/
def process_cml_file_rawdata (existing : List (String × String))
    (df : DataFrame) : ProcessOutcome :=
  let v := DBWriter.validate_rawdata_references existing df
  match DBWriter.write_rawdata df with
  | Except.ok wn =>
    ⟨some wn, true, none,
      if !v.1 && !v.2.isEmpty then some (v.2.length, v.2.take 10) else none⟩
  | Except.error e => ⟨none, false, some e, none⟩

/-- A concrete one-row rawdata frame referencing a pair absent from an empty
metadata table. -/
def claimC1Frame : DataFrame :=
  ⟨["time", "cml_id", "sublink_id", "tsl", "rsl"],
    [fun c => if c = "time" then PyVal.vstr "2024-01-01T00:00:00"
      else if c = "cml_id" then PyVal.vstr "10001"
      else if c = "sublink_id" then PyVal.vstr "sublink_1"
      else PyVal.vnum 1]⟩

/-- Counterexample to C1: processing a rawdata table with a pair absent from
the metadata table through the service path (`ParserService.process_file`)
writes nothing, does not archive, and quarantines the file — insertion is
blocked, contrary to the claim. -/
theorem claimC1_counterexample :
    ParserService.process_file_rawdata [] claimC1Frame =
      ⟨none, false,
        some "Missing metadata for CML IDs: [(10001, sublink_1)]", none⟩ :=
  rfl

/-- Claim C1 (amended): when a rawdata table (with the required columns)
contains a pair absent from the metadata table, the two code paths diverge:
the service path `ParserService.process_file` quarantines the file with the
missing pairs in the reason and writes nothing, while the extracted helper
`process_cml_file` writes all rows, logs a warning with a 10-element sample
of the missing pairs, and archives the file. -/
theorem claimC1_amended_reference_handling
    (existing : List (String × String)) (df : DataFrame)
    (ht : df.hasCol "time" = true) (hc : df.hasCol "cml_id" = true)
    (hs : df.hasCol "sublink_id" = true) (htsl : df.hasCol "tsl" = true)
    (hrsl : df.hasCol "rsl" = true)
    (hmiss : (DBWriter.validate_rawdata_references existing df).1 = false) :
    ParserService.process_file_rawdata existing df =
      ⟨none, false,
        some ("Missing metadata for CML IDs: " ++
          pairsRepr (DBWriter.validate_rawdata_references existing df).2),
        none⟩ ∧
    (∃ recs, process_cml_file_rawdata existing df =
      ⟨some (recs, df.rows.length), true, none,
        some ((DBWriter.validate_rawdata_references existing df).2.length,
          (DBWriter.validate_rawdata_references existing df).2.take 10)⟩) := by
  have hne : df.isEmptyDF = false := by
    cases hdf : df.isEmptyDF with
    | false => rfl
    | true =>
      exfalso
      unfold DBWriter.validate_rawdata_references at hmiss
      rw [hdf] at hmiss
      simp at hmiss
  constructor
  · simp [ParserService.process_file_rawdata, hmiss]
  · have hwrite : DBWriter.write_rawdata df =
        Except.ok (df.rows.map (fun r =>
          (⟨r "time", pyStr (r "cml_id"),
            DBWriter.sublinkCell (r "sublink_id"),
            r "rsl", r "tsl"⟩ : RawRecord)), df.rows.length) := by
      unfold DBWriter.write_rawdata
      rw [hne]
      simp [ht, hc, hs, htsl, hrsl]
    have hv2 : (DBWriter.validate_rawdata_references existing df).2.isEmpty =
        false := by
      unfold DBWriter.validate_rawdata_references at hmiss ⊢
      rw [hne] at hmiss ⊢
      simpa using hmiss
    refine ⟨df.rows.map (fun r =>
      (⟨r "time", pyStr (r "cml_id"), DBWriter.sublinkCell (r "sublink_id"),
        r "rsl", r "tsl"⟩ : RawRecord)), ?_⟩
    simp [process_cml_file_rawdata, hwrite, hmiss, hv2]

/-- Witness for C1 (amended): on the concrete one-row frame with an empty
metadata table, the service path does not archive (it quarantines) while the
extracted helper archives after writing. -/
theorem claimC1_amended_reference_handling_witness :
    (ParserService.process_file_rawdata [] claimC1Frame).archived = false ∧
    (process_cml_file_rawdata [] claimC1Frame).archived = true := by
  have h := claimC1_amended_reference_handling [] claimC1Frame
    rfl rfl rfl rfl rfl rfl
  constructor
  · rw [h.1]
  · obtain ⟨recs, hr⟩ := h.2
    rw [hr]

/-! ## Claim C3: SFTP authentication configuration
(`src/mno_data_source_simulator/sftp_uploader.py` and `main.py`)

The authentication-selection phase of `SFTPUploader.connect` runs strictly
before `self.client.connect(**connect_kwargs)`, the first network attempt;
it is modelled as a pure function whose `Except.ok` value is the
authentication method handed to the network call.  Key loading
(`paramiko.RSAKey.from_private_key_file`) is an oracle.  Python truthiness
of the optional string fields is modelled by `pyTruthy`. -/

/-- Python truthiness of an optional string: `None` and `""` are falsy. -/
def pyTruthy : Option String → Bool
  | none => false
  | some s => !decide (s = "")

/-- The authentication method selected for the network connection. -/
inductive AuthMethod (K : Type)
  | key (k : K)
  | password (pw : String)

/-- The `elif self._password: ... else: raise ValueError(...)` tail of the
auth selection in `SFTPUploader.connect`. -/
def passwordFallback (K : Type) (password : Option String) :
    Except String (AuthMethod K) :=
  match password with
  | some pw =>
    if pw = "" then
      Except.error "Either password or private_key_path must be provided"
    else Except.ok (AuthMethod.password pw)
  | none => Except.error "Either password or private_key_path must be provided"

/-- Models the auth-selection block of `SFTPUploader.connect`: a truthy
`private_key_path` is always preferred (loading the key, with a descriptive
error when the file is invalid); only otherwise is the password considered;
with neither, a `ValueError` is raised before any network attempt. -/
def SFTPUploader.connectAuth (K : Type) (password privateKeyPath : Option String)
    (loadKey : String → Except String K) : Except String (AuthMethod K) :=
  match privateKeyPath with
  | some p =>
    if p = "" then passwordFallback K password
    else
      match loadKey p with
      | Except.ok k => Except.ok (AuthMethod.key k)
      | Except.error _ => Except.error ("Invalid private key file: " ++ p)
  | none => passwordFallback K password

/-- The caller-level decision of `main` in
`src/mno_data_source_simulator/main.py`. -/
inductive MainAuthDecision
  | disabledError
  | disabledWarning
  | proceed (password : Option String) (keyPath : Option String)
  deriving DecidableEq

/-- Models the auth validation in `main`: both methods configured logs an
error and disables SFTP (no exception), neither logs a warning and disables,
exactly one proceeds to construct and connect the uploader. -/
def mainAuthGate (sftpPassword privateKeyPath : Option String) :
    MainAuthDecision :=
  if pyTruthy sftpPassword && pyTruthy privateKeyPath then
    MainAuthDecision.disabledError
  else if !pyTruthy sftpPassword && !pyTruthy privateKeyPath then
    MainAuthDecision.disabledWarning
  else MainAuthDecision.proceed sftpPassword privateKeyPath

/-- Counterexample to C3: a configuration with BOTH a password and a
(loadable) private key does not raise a configuration error in `connect` —
key authentication is silently preferred and the network attempt proceeds;
and the caller-level gate merely disables upload (logging) rather than
raising. -/
theorem claimC3_counterexample :
    SFTPUploader.connectAuth Nat (some "secret") (some "/keys/id_rsa")
        (fun _ => Except.ok 0) =
      Except.ok (AuthMethod.key 0) ∧
    mainAuthGate (some "secret") (some "/keys/id_rsa") =
      MainAuthDecision.disabledError :=
  ⟨rfl, rfl⟩

/-- Claim C3 (amended): `connect` raises the configuration error before any
network attempt iff NEITHER method is truthy; a truthy private-key path is
preferred regardless of the password (an unloadable key raises an
invalid-key error, a loadable one proceeds with key auth); a truthy password
alone proceeds with password auth.  The both-present case is rejected only
at the caller level: `main` logs an error and disables SFTP rather than
raising, and likewise merely warns when neither is configured. -/
theorem claimC3_amended_auth_config (K : Type)
    (password privateKeyPath : Option String)
    (loadKey : String → Except String K) :
    (pyTruthy password = false → pyTruthy privateKeyPath = false →
      SFTPUploader.connectAuth K password privateKeyPath loadKey =
        Except.error "Either password or private_key_path must be provided") ∧
    (∀ p k, privateKeyPath = some p → pyTruthy privateKeyPath = true →
      loadKey p = Except.ok k →
      SFTPUploader.connectAuth K password privateKeyPath loadKey =
        Except.ok (AuthMethod.key k)) ∧
    (∀ p e, privateKeyPath = some p → pyTruthy privateKeyPath = true →
      loadKey p = Except.error e →
      SFTPUploader.connectAuth K password privateKeyPath loadKey =
        Except.error ("Invalid private key file: " ++ p)) ∧
    (∀ pw, password = some pw → pyTruthy password = true →
      pyTruthy privateKeyPath = false →
      SFTPUploader.connectAuth K password privateKeyPath loadKey =
        Except.ok (AuthMethod.password pw)) ∧
    (pyTruthy password = true → pyTruthy privateKeyPath = true →
      mainAuthGate password privateKeyPath = MainAuthDecision.disabledError) ∧
    (pyTruthy password = false → pyTruthy privateKeyPath = false →
      mainAuthGate password privateKeyPath =
        MainAuthDecision.disabledWarning) ∧
    (pyTruthy password ≠ pyTruthy privateKeyPath →
      mainAuthGate password privateKeyPath =
        MainAuthDecision.proceed password privateKeyPath) := by
  refine ⟨?_, ?_, ?_, ?_, ?_, ?_, ?_⟩
  · intro hpw hpk
    cases privateKeyPath with
    | none =>
      cases password with
      | none => rfl
      | some pw =>
        simp only [pyTruthy, Bool.not_eq_false', decide_eq_true_eq] at hpw
        simp [SFTPUploader.connectAuth, passwordFallback, hpw]
    | some p =>
      simp only [pyTruthy, Bool.not_eq_false', decide_eq_true_eq] at hpk
      cases password with
      | none => simp [SFTPUploader.connectAuth, passwordFallback, hpk]
      | some pw =>
        simp only [pyTruthy, Bool.not_eq_false', decide_eq_true_eq] at hpw
        simp [SFTPUploader.connectAuth, passwordFallback, hpk, hpw]
  · intro p k hp hpk hload
    subst hp
    have hp2 : ¬(p = "") := by simpa [pyTruthy] using hpk
    simp [SFTPUploader.connectAuth, hp2, hload]
  · intro p e hp hpk hload
    subst hp
    have hp2 : ¬(p = "") := by simpa [pyTruthy] using hpk
    simp [SFTPUploader.connectAuth, hp2, hload]
  · intro pw hpw htr hpk
    subst hpw
    have hpw2 : ¬(pw = "") := by simpa [pyTruthy] using htr
    cases privateKeyPath with
    | none => simp [SFTPUploader.connectAuth, passwordFallback, hpw2]
    | some p =>
      have hpk2 : p = "" := by simpa [pyTruthy] using hpk
      simp [SFTPUploader.connectAuth, passwordFallback, hpk2, hpw2]
  · intro hpw hpk
    simp [mainAuthGate, hpw, hpk]
  · intro hpw hpk
    simp [mainAuthGate, hpw, hpk]
  · intro hne
    cases hpw : pyTruthy password <;> cases hpk : pyTruthy privateKeyPath <;>
      simp [mainAuthGate, hpw, hpk] <;>
      exact absurd (hpw.trans hpk.symm) hne

/-- Witness for C3 (amended): a password-only configuration proceeds with
password auth, and the caller-level gate disables upload when both methods
are configured. -/
theorem claimC3_amended_auth_config_witness :
    SFTPUploader.connectAuth Nat (some "secret") Option.none
        (fun _ => Except.error "no key") =
      Except.ok (AuthMethod.password "secret") ∧
    mainAuthGate (some "secret") (some "/keys/id_rsa") =
      MainAuthDecision.disabledError := by
  have h1 := claimC3_amended_auth_config Nat (some "secret") Option.none
    (fun _ => Except.error "no key")
  have h2 := claimC3_amended_auth_config Nat (some "secret")
    (some "/keys/id_rsa") (fun _ => (Except.error "no key" : Except String Nat))
  exact ⟨h1.2.2.2.1 "secret" rfl rfl rfl, h2.2.2.2.2.1 rfl rfl⟩

/-! ## Claim C6: remote path validation
(`SFTPUploader._validate_remote_path`)

`os.path.normpath` (POSIX) is translated in full, including its leading
double-slash special case.  The Python error strings quote `..`; the quotes
are omitted here (apostrophes elided). -/

/-- The allow-list character class of `^[a-zA-Z0-9/_.-]+$`. -/
def remoteAllowChar (c : Char) : Bool :=
  c.isAlpha || c.isDigit || c = '/' || c = '_' || c = '.' || c = '-'

/-- Models POSIX `os.path.normpath`: empty becomes `.`, a leading slash is
kept (exactly two leading slashes are kept as two), empty and `.` components
are dropped, `..` pops a previous component unless unpoppable. -/
def normpath (path : String) : String :=
  if path = "" then "." else
  let slashes : Nat :=
    if strStartsWith path "//" && !strStartsWith path "///" then 2
    else if strStartsWith path "/" then 1 else 0
  let comps := splitSlash path
  let newComps := comps.foldl (fun acc comp =>
    if comp = "" || comp = "." then acc
    else if comp ≠ ".." ∨ (slashes = 0 ∧ acc = []) ∨
        (acc ≠ [] ∧ acc.getLast? = some "..") then acc ++ [comp]
    else if acc ≠ [] then acc.dropLast
    else acc) []
  let joined := joinSlash newComps
  let p := (if slashes = 2 then "//" else if slashes = 1 then "/" else "") ++
    joined
  if p = "" then "." else p

/-- Models `SFTPUploader._validate_remote_path`: absolute, no `..`
substring, allow-list regex, then `normpath`. -/
def SFTPUploader.validate_remote_path (path : String) : Except String String :=
  if !strStartsWith path "/" then
    Except.error "Remote path must be absolute (start with /)"
  else if strContains path ".." then
    Except.error "Remote path cannot contain .. (path traversal)"
  else if !pyFullMatchAllow remoteAllowChar path then
    Except.error "Remote path contains invalid characters"
  else Except.ok (normpath path)

/-- Following the words of the spec sentence (for comparison with the code):
normalization that collapses every run of duplicate separators to one. -/
def collapseRuns : List Char → List Char
  | [] => []
  | [c] => [c]
  | a :: b :: t =>
    if a = '/' && b = '/' then collapseRuns (b :: t)
    else a :: collapseRuns (b :: t)

/-- Following the words of the spec sentence: the stored path with duplicate
separators collapsed. -/
def specCollapseSlashes (s : String) : String :=
  String.mk (collapseRuns s.toList)

/-- Counterexample to C6: the path `//a//b` passes validation but is stored
as `//a/b` — the leading double separator is NOT collapsed (POSIX normpath
keeps exactly two leading slashes), differing from the spec-worded collapse;
and `/a` followed by a newline passes validation although the newline is
outside the allow-list (the regex `$` anchor tolerates one trailing
newline). -/
theorem claimC6_counterexample :
    SFTPUploader.validate_remote_path "//a//b" = Except.ok "//a/b" ∧
    specCollapseSlashes "//a//b" = "/a/b" ∧
    strContains "//a/b" "//" = true ∧
    SFTPUploader.validate_remote_path "/a\n" = Except.ok "/a\n" ∧
    remoteAllowChar '\n' = false :=
  ⟨rfl, rfl, rfl, rfl, rfl⟩

/-- Claim C6 (amended): a non-absolute path, a path containing `..`, or a
path failing the allow-list regex (which tolerates one trailing newline) is
rejected at construction with the corresponding descriptive error, in that
priority order; `/a/../etc` fails with the traversal error.  An accepted
path is stored as its POSIX-normalized form: `.` segments, trailing
separators and duplicate separators are removed, EXCEPT that a path
beginning with exactly two slashes keeps both; `/a//b` is stored as
`/a/b`. -/
theorem claimC6_amended_remote_path (p : String) :
    (strStartsWith p "/" = false →
      SFTPUploader.validate_remote_path p =
        Except.error "Remote path must be absolute (start with /)") ∧
    (strStartsWith p "/" = true → strContains p ".." = true →
      SFTPUploader.validate_remote_path p =
        Except.error "Remote path cannot contain .. (path traversal)") ∧
    (strStartsWith p "/" = true → strContains p ".." = false →
      pyFullMatchAllow remoteAllowChar p = false →
      SFTPUploader.validate_remote_path p =
        Except.error "Remote path contains invalid characters") ∧
    (strStartsWith p "/" = true → strContains p ".." = false →
      pyFullMatchAllow remoteAllowChar p = true →
      SFTPUploader.validate_remote_path p = Except.ok (normpath p)) ∧
    SFTPUploader.validate_remote_path "/a/../etc" =
      Except.error "Remote path cannot contain .. (path traversal)" ∧
    SFTPUploader.validate_remote_path "/a//b" = Except.ok "/a/b" ∧
    normpath "/a/./b/" = "/a/b" := by
  refine ⟨?_, ?_, ?_, ?_, rfl, rfl, rfl⟩
  · intro h
    simp [SFTPUploader.validate_remote_path, h]
  · intro h1 h2
    simp [SFTPUploader.validate_remote_path, h1, h2]
  · intro h1 h2 h3
    simp [SFTPUploader.validate_remote_path, h1, h2, h3]
  · intro h1 h2 h3
    simp [SFTPUploader.validate_remote_path, h1, h2, h3]

/-- Witness for C6 (amended): the theorem applied at `/a/..x`, a concrete
absolute path containing `..`, yields the traversal error. -/
theorem claimC6_amended_remote_path_witness :
    SFTPUploader.validate_remote_path "/a/..x" =
      Except.error "Remote path cannot contain .. (path traversal)" :=
  (claimC6_amended_remote_path "/a/..x").2.1 rfl rfl

/-! ## Claim C7: filename sanitization before upload
(`SFTPUploader._sanitize_filename`, `SFTPUploader.upload_file`)

`upload_file` sanitizes the remote filename strictly before `self.sftp.put`,
the network transfer call; the outcome records whether the transfer call was
reached. -/

/-- The allow-list character class of `^[a-zA-Z0-9_.-]+$`. -/
def filenameAllowChar (c : Char) : Bool :=
  c.isAlpha || c.isDigit || c = '_' || c = '.' || c = '-'

/-- Models `SFTPUploader._sanitize_filename`: basename re-derivation with
rejection of any embedded separator, allow-list check, hidden-file check;
an accepted name is returned unchanged. -/
def SFTPUploader.sanitize_filename (filename : String) : Except String String :=
  let basename := pyBasename filename
  if basename ≠ filename || strContains filename "/" ||
      strContains filename "\\" then
    Except.error ("Invalid filename: " ++ filename)
  else if !pyFullMatchAllow filenameAllowChar basename then
    Except.error ("Filename contains invalid characters: " ++ basename)
  else if strStartsWith basename "." then
    Except.error ("Hidden files not allowed: " ++ basename)
  else Except.ok basename

/-- Outcome of `upload_file`: the returned-or-raised value and whether the
network transfer (`sftp.put`) was invoked. -/
structure UploadOutcome where
  result : Except String String
  putCalled : Bool

/-- Models `SFTPUploader.upload_file` on an established session:
sanitization happens before any transfer; on success the remote path is
`remote_path` joined with the unchanged safe name and `put` is called. -/
def SFTPUploader.upload_file (remotePath : String) (remoteFilename : String) :
    UploadOutcome :=
  match SFTPUploader.sanitize_filename remoteFilename with
  | Except.error e => ⟨Except.error e, false⟩
  | Except.ok safe => ⟨Except.ok (remotePath ++ "/" ++ safe), true⟩

/-- Counterexample to C7: the filename `x.csv` followed by a newline
contains a character outside the allow-list, yet it is NOT rejected — the
regex `$` anchor tolerates one trailing newline, so the file is uploaded
under that name. -/
theorem claimC7_counterexample :
    SFTPUploader.upload_file "/upload" "x.csv\n" =
      ⟨Except.ok "/upload/x.csv\n", true⟩ ∧
    filenameAllowChar '\n' = false :=
  ⟨rfl, rfl⟩

/-- Claim C7 (amended): a name differing from its own basename or containing
a separator is rejected with the invalid-filename error; a name failing the
allow-list regex — which tolerates one trailing newline — is rejected with
the invalid-characters error; a remaining name starting with `.` is rejected
as hidden; every rejection happens with no network transfer call; an
accepted name is used unchanged as the remote basename.  `../x.csv` is
rejected with the invalid-filename error before any network call. -/
theorem claimC7_amended_filename_hardening (r f : String) :
    ((pyBasename f ≠ f ∨ strContains f "/" = true ∨
        strContains f "\\" = true) →
      SFTPUploader.upload_file r f =
        ⟨Except.error ("Invalid filename: " ++ f), false⟩) ∧
    (pyBasename f = f → strContains f "/" = false →
      strContains f "\\" = false →
      pyFullMatchAllow filenameAllowChar f = false →
      SFTPUploader.upload_file r f =
        ⟨Except.error ("Filename contains invalid characters: " ++ f),
          false⟩) ∧
    (pyBasename f = f → strContains f "/" = false →
      strContains f "\\" = false →
      pyFullMatchAllow filenameAllowChar f = true →
      strStartsWith f "." = true →
      SFTPUploader.upload_file r f =
        ⟨Except.error ("Hidden files not allowed: " ++ f), false⟩) ∧
    (pyBasename f = f → strContains f "/" = false →
      strContains f "\\" = false →
      pyFullMatchAllow filenameAllowChar f = true →
      strStartsWith f "." = false →
      SFTPUploader.upload_file r f = ⟨Except.ok (r ++ "/" ++ f), true⟩) ∧
    (∀ e, (SFTPUploader.upload_file r f).result = Except.error e →
      (SFTPUploader.upload_file r f).putCalled = false) ∧
    SFTPUploader.upload_file r "../x.csv" =
      ⟨Except.error "Invalid filename: ../x.csv", false⟩ := by
  refine ⟨?_, ?_, ?_, ?_, ?_, ?_⟩
  · intro h
    rcases h with h | h | h <;>
      simp [SFTPUploader.upload_file, SFTPUploader.sanitize_filename, h]
  · intro h1 h2 h3 h4
    simp [SFTPUploader.upload_file, SFTPUploader.sanitize_filename,
      h1, h2, h3, h4]
  · intro h1 h2 h3 h4 h5
    simp [SFTPUploader.upload_file, SFTPUploader.sanitize_filename,
      h1, h2, h3, h4, h5]
  · intro h1 h2 h3 h4 h5
    simp [SFTPUploader.upload_file, SFTPUploader.sanitize_filename,
      h1, h2, h3, h4, h5]
  · intro e he
    unfold SFTPUploader.upload_file at he ⊢
    cases hs : SFTPUploader.sanitize_filename f with
    | ok safe =>
      rw [hs] at he
      simp at he
    | error e2 => rfl
  · have hb : pyBasename "../x.csv" ≠ "../x.csv" := by decide
    simp [SFTPUploader.upload_file, SFTPUploader.sanitize_filename, hb]

/-- Witness for C7 (amended): the theorem applied at the concrete name
`..secret` (no separators, allowed characters, leading dot) yields the
hidden-file rejection with no network call. -/
theorem claimC7_amended_filename_hardening_witness :
    SFTPUploader.upload_file "/upload" "..secret" =
      ⟨Except.error "Hidden files not allowed: ..secret", false⟩ :=
  (claimC7_amended_filename_hardening "/upload" "..secret").2.2.1
    rfl rfl rfl rfl rfl

/-! ## Claim C8: quarantine ErrorNote contents
(`FileManager.quarantine_file`, `src/parser/file_manager.py`)

Filesystem effects are abstracted into Booleans: whether the source still
exists, whether the move succeeds, whether the copy fallback succeeds.  The
UTC timestamp produced by `datetime.now(timezone.utc).isoformat()` is the
explicit argument `now`.  The note write itself is assumed to succeed (its
failure is only logged by the source). -/

/-- Outcome of `quarantine_file`: the returned path, the ErrorNote file name
and contents, and whether an exception escaped. -/
structure QuarantineResult where
  returned : String
  noteName : String
  noteContents : String
  raised : Bool

/-- Models `FileManager.quarantine_file`: a vanished source gets only an
ErrorNote named `<name>.error.txt` (whose text has no timestamp) and the
note path is returned; otherwise move, else copy, else an `.orphan` dest
name, always followed by the timestamped note against the dest name. -/
def FileManager.quarantine_file (qdir name origPath : String)
    (srcExists moveOk copyOk : Bool) (now err : String) : QuarantineResult :=
  if srcExists = false then
    ⟨qdir ++ "/" ++ (name ++ ".error.txt"), name ++ ".error.txt",
      "Original file not found: " ++ origPath ++ "\nError: " ++ err ++ "\n",
      false⟩
  else
    let destName :=
      if moveOk then name else if copyOk then name else name ++ ".orphan"
    ⟨qdir ++ "/" ++ destName, destName ++ ".error.txt",
      "Quarantined at: " ++ now ++ "\nError: " ++ err ++
        "\nOriginalPath: " ++ origPath ++ "\n",
      false⟩

/-- A list is a prefix of itself extended by anything. -/
theorem isPrefixOf_append_self (l m : List Char) :
    l.isPrefixOf (l ++ m) = true := by
  induction l with
  | nil => simp [List.isPrefixOf]
  | cons a t ih => simp [List.isPrefixOf, ih]

/-- Being a prefix is preserved by extending the larger list. -/
theorem isPrefixOf_append_right (l m xs : List Char)
    (h : l.isPrefixOf m = true) : l.isPrefixOf (m ++ xs) = true := by
  induction l generalizing m with
  | nil => simp [List.isPrefixOf]
  | cons a t ih =>
    cases m with
    | nil => simp [List.isPrefixOf] at h
    | cons b bs =>
      simp only [List.isPrefixOf, Bool.and_eq_true] at h
      simp only [List.cons_append, List.isPrefixOf, Bool.and_eq_true]
      exact ⟨h.1, ih bs h.2⟩

/-- The empty pattern occurs in every text. -/
theorem subAux_nil_pat (l : List Char) : subAux [] l = true := by
  cases l <;> simp [subAux, List.isPrefixOf]

/-- The search `subAux` finds the pattern at the head of the text. -/
theorem subAux_self_append (pat ys : List Char) :
    subAux pat (pat ++ ys) = true := by
  cases pat with
  | nil => exact subAux_nil_pat _
  | cons a t => simp [subAux, List.isPrefixOf, isPrefixOf_append_self]

/-- Occurrence under `subAux` is preserved by prepending text. -/
theorem subAux_append_left (pat xs l : List Char)
    (h : subAux pat l = true) : subAux pat (xs ++ l) = true := by
  induction xs with
  | nil => simpa using h
  | cons x t ih => simp [subAux, ih]

/-- Occurrence under `subAux` is preserved by appending text. -/
theorem subAux_append_right (pat l xs : List Char)
    (h : subAux pat l = true) : subAux pat (l ++ xs) = true := by
  induction l with
  | nil =>
    simp [subAux] at h
    simp [h, subAux_nil_pat]
  | cons c cs ih =>
    simp only [subAux, Bool.or_eq_true] at h
    rcases h with h | h
    · simp only [List.cons_append, subAux, Bool.or_eq_true]
      exact Or.inl (isPrefixOf_append_right _ _ _ h)
    · simp only [List.cons_append, subAux, Bool.or_eq_true]
      exact Or.inr (ih h)

/-- Every string occurs in itself. -/
theorem strContains_self (pat : String) : strContains pat pat = true := by
  unfold strContains
  have h := subAux_self_append pat.toList []
  simpa using h

/-- Occurrence is preserved by appending on the right. -/
theorem strContains_append_right (s t pat : String)
    (h : strContains s pat = true) : strContains (s ++ t) pat = true := by
  unfold strContains at h ⊢
  simp only [String.toList] at h ⊢
  rw [String.data_append]
  exact subAux_append_right _ _ _ h

/-- Occurrence is preserved by prepending on the left. -/
theorem strContains_append_left (s t pat : String)
    (h : strContains t pat = true) : strContains (s ++ t) pat = true := by
  unfold strContains at h ⊢
  simp only [String.toList] at h ⊢
  rw [String.data_append]
  exact subAux_append_left _ _ _ h

/-- Counterexample to C8: quarantining a vanished source writes an ErrorNote
whose contents hold the reason and the original path but NOT the UTC
timestamp, contradicting the every-note-has-a-timestamp part of the claim. -/
theorem claimC8_counterexample :
    (FileManager.quarantine_file "/app/data/quarantine" "f.csv"
        "/app/data/incoming/f.csv" false true true
        "2026-10-12T00:00:00+00:00" "boom").noteContents =
      "Original file not found: /app/data/incoming/f.csv\nError: boom\n" ∧
    strContains
      "Original file not found: /app/data/incoming/f.csv\nError: boom\n"
      "2026-10-12T00:00:00+00:00" = false :=
  ⟨rfl, by decide⟩

/-- Claim C8 (amended): `quarantine_file` never raises and always writes an
ErrorNote; for an existing source the note (named `<dest>.error.txt`, with
`.orphan` appended to the dest when both move and copy fail) contains the
UTC timestamp, the failure reason and the original source path; for a
vanished source only the ErrorNote `<name>.error.txt` is written — it
contains `Original file not found`, the original path and the reason, but no
timestamp field — and the note path is returned. -/
theorem claimC8_amended_quarantine_note (qdir name origPath : String)
    (srcExists moveOk copyOk : Bool) (now err : String) :
    (FileManager.quarantine_file qdir name origPath srcExists moveOk copyOk
      now err).raised = false ∧
    (srcExists = true →
      strContains (FileManager.quarantine_file qdir name origPath srcExists
        moveOk copyOk now err).noteContents now = true ∧
      strContains (FileManager.quarantine_file qdir name origPath srcExists
        moveOk copyOk now err).noteContents err = true ∧
      strContains (FileManager.quarantine_file qdir name origPath srcExists
        moveOk copyOk now err).noteContents origPath = true ∧
      (moveOk = false → copyOk = false →
        (FileManager.quarantine_file qdir name origPath srcExists moveOk
          copyOk now err).noteName = name ++ ".orphan" ++ ".error.txt")) ∧
    (srcExists = false →
      FileManager.quarantine_file qdir name origPath srcExists moveOk copyOk
        now err =
      ⟨qdir ++ "/" ++ (name ++ ".error.txt"), name ++ ".error.txt",
        "Original file not found: " ++ origPath ++ "\nError: " ++ err ++
          "\n", false⟩) := by
  refine ⟨?_, ?_, ?_⟩
  · cases srcExists <;> rfl
  · intro hsrc
    subst hsrc
    have hcontents : (FileManager.quarantine_file qdir name origPath true
        moveOk copyOk now err).noteContents =
        "Quarantined at: " ++ now ++ "\nError: " ++ err ++
          "\nOriginalPath: " ++ origPath ++ "\n" := rfl
    refine ⟨?_, ?_, ?_, ?_⟩
    · rw [hcontents]
      apply strContains_append_right
      apply strContains_append_right
      apply strContains_append_right
      apply strContains_append_right
      apply strContains_append_right
      apply strContains_append_left
      exact strContains_self now
    · rw [hcontents]
      apply strContains_append_right
      apply strContains_append_right
      apply strContains_append_right
      apply strContains_append_left
      exact strContains_self err
    · rw [hcontents]
      apply strContains_append_right
      apply strContains_append_left
      exact strContains_self origPath
    · intro hm hcp
      subst hm
      subst hcp
      rfl
  · intro hsrc
    subst hsrc
    rfl

/-- Witness for C8 (amended): concrete instantiation with an existing source
whose move fails and copy succeeds; the note carries the timestamp. -/
theorem claimC8_amended_quarantine_note_witness :
    strContains (FileManager.quarantine_file "/q" "f.csv" "/in/f.csv" true
      false true "2026-10-12T00:00:00+00:00" "bad file").noteContents
      "2026-10-12T00:00:00+00:00" = true :=
  (claimC8_amended_quarantine_note "/q" "f.csv" "/in/f.csv" true false true
    "2026-10-12T00:00:00+00:00" "bad file").2.1 rfl |>.1

/-! ## Claim C9: the watcher in-flight set
(`FileUploadHandler.on_created`, `src/parser/file_watcher.py`)

The stabilization wait performs no state change relevant to the claim and is
omitted; the callback is abstracted as an `Except` value (its exceptions are
caught by the handler).  The in-flight `set` is modelled as a duplicate-free
list. -/

/-- Index of the last occurrence of a character, like Python `str.rfind`. -/
def rfindChar (c : Char) : List Char → Option Nat
  | [] => none
  | x :: xs =>
    match rfindChar c xs with
    | some i => some (i + 1)
    | none => if x = c then some 0 else none

/-- Models `pathlib.Path(s).suffix`: the extension of the final component,
empty unless the last dot is neither leading nor final. -/
def pathSuffix (s : String) : String :=
  let nm := pyBasename s
  let l := nm.toList
  match rfindChar '.' l with
  | some i => if 0 < i && i < l.length - 1 then String.mk (l.drop i) else ""
  | none => ""

/-- Models Python `str.lower` (ASCII, which covers the extension lists the
service uses). -/
def strLower (s : String) : String :=
  String.mk (s.toList.map Char.toLower)

/-- Outcome of one `on_created` call: the in-flight set after the handler
returns, the set while the callback ran, whether the callback was invoked,
and whether an exception escaped the handler. -/
structure OnCreatedResult where
  processing : List String
  during : List String
  invoked : Bool
  raised : Bool

/-- Models `FileUploadHandler.on_created`: directories and disallowed
extensions are ignored; a path already in flight is skipped; otherwise the
path is added, the callback runs (its exception caught), and the path is
discarded in the `finally` block. -/
def FileUploadHandler.on_created (E : Type) (supported : List String)
    (processing : List String) (isDir : Bool) (srcPath : String)
    (_cbResult : Except E Unit) : OnCreatedResult :=
  if isDir then ⟨processing, processing, false, false⟩
  else if !supported.isEmpty &&
      !supported.contains (strLower (pathSuffix srcPath)) then
    ⟨processing, processing, false, false⟩
  else if processing.contains srcPath then
    ⟨processing, processing, false, false⟩
  else
    let s1 := srcPath :: processing
    ⟨s1.filter (fun q => !(q == srcPath)), s1, true, false⟩

/-- Claim C9: a path already in the in-flight set is not dispatched again;
otherwise the path is added to the set, the callback is invoked, an
exception from the callback never escapes the handler, and the path is
removed from the set on every outcome. -/
theorem claimC9_on_created_inflight (E : Type) (supported : List String)
    (processing : List String) (isDir : Bool) (srcPath : String)
    (cb : Except E Unit) :
    (processing.contains srcPath = true →
      (FileUploadHandler.on_created E supported processing isDir srcPath
        cb).invoked = false ∧
      (FileUploadHandler.on_created E supported processing isDir srcPath
        cb).processing = processing) ∧
    (isDir = false →
      (supported.isEmpty = true ∨
        supported.contains (strLower (pathSuffix srcPath)) = true) →
      processing.contains srcPath = false →
      (FileUploadHandler.on_created E supported processing isDir srcPath
          cb).invoked = true ∧
      (FileUploadHandler.on_created E supported processing isDir srcPath
          cb).during.contains srcPath = true ∧
      (FileUploadHandler.on_created E supported processing isDir srcPath
          cb).processing = processing ∧
      (FileUploadHandler.on_created E supported processing isDir srcPath
          cb).processing.contains srcPath = false) ∧
    (FileUploadHandler.on_created E supported processing isDir srcPath
      cb).raised = false := by
  refine ⟨?_, ?_, ?_⟩
  · intro hmem
    unfold FileUploadHandler.on_created
    split
    · exact ⟨rfl, rfl⟩
    · split
      · exact ⟨rfl, rfl⟩
      · simp [hmem]
  · intro hdir hext hmem
    subst hdir
    have hni : ¬ srcPath ∈ processing := by simpa using hmem
    have hcond : (!supported.isEmpty &&
        !supported.contains (strLower (pathSuffix srcPath))) = false := by
      rcases hext with h | h
      · simp [h]
      · have hm : strLower (pathSuffix srcPath) ∈ supported := by simpa using h
        simp [hm]
    have hfil : processing.filter (fun q => !(q == srcPath)) = processing := by
      apply List.filter_eq_self.mpr
      intro a ha
      simp only [Bool.not_eq_eq_eq_not, Bool.not_true, beq_eq_false_iff_ne,
        ne_eq]
      intro heq
      subst heq
      exact hni ha
    have hdisp : FileUploadHandler.on_created E supported processing false
        srcPath cb =
        ⟨(srcPath :: processing).filter (fun q => !(q == srcPath)),
          srcPath :: processing, true, false⟩ := by
      unfold FileUploadHandler.on_created
      rw [if_neg (by simp), if_neg (by rw [hcond]; simp),
        if_neg (by rw [hmem]; simp)]
    rw [hdisp]
    refine ⟨rfl, by simp, ?_, ?_⟩
    · simp [List.filter_cons, hfil]
    · simp [List.filter_cons, hfil]
      exact hni
  · unfold FileUploadHandler.on_created
    split
    · rfl
    · split
      · rfl
      · split
        · rfl
        · rfl

/-- Witness for C9: a fresh `.csv` path is dispatched (with the callback
raising, nothing escapes), while the same path already in flight is not. -/
theorem claimC9_on_created_inflight_witness :
    (FileUploadHandler.on_created String [".csv"] [] false
      "/incoming/cml_data_1.csv" (Except.error "cb failed")).invoked = true ∧
    (FileUploadHandler.on_created String [".csv"] [] false
      "/incoming/cml_data_1.csv" (Except.error "cb failed")).raised = false ∧
    (FileUploadHandler.on_created String [".csv"]
      ["/incoming/cml_data_1.csv"] false "/incoming/cml_data_1.csv"
      (Except.error "cb failed")).invoked = false := by
  have h1 := claimC9_on_created_inflight String [".csv"] [] false
    "/incoming/cml_data_1.csv" (Except.error "cb failed")
  have h2 := claimC9_on_created_inflight String [".csv"]
    ["/incoming/cml_data_1.csv"] false "/incoming/cml_data_1.csv"
    (Except.error "cb failed")
  exact ⟨(h1.2.1 rfl (Or.inr (by decide)) rfl).1, h1.2.2,
    (h2.1 (by decide)).1⟩
